import Mathlib

/-!
# Verification of the `run_script` staging and invocation pipeline

A shallow embedding of `src/runner.rs` (crate `run_script`).  Effectful
primitives (current directory, temp directory, OS username, the random
generator, and the outcome of each filesystem / process call) are supplied
by an explicit environment `Env`; every runner function additionally
returns the list of filesystem / process events it performed, so that
claims about cleanup ordering become statements about the event trace.

Rust string primitives used by the source (`str::trim`, `str::split`,
`str::starts_with`, `String::from_utf8_lossy`) are embedded as executable
structural functions over `String.data`, mirroring the documented Rust
semantics, so that every definition evaluates inside the kernel.
-/

namespace RunScript

/-! ## Model of the Rust string primitives -/

/-- Model of Rust `str::trim`: drop leading and trailing whitespace
characters from a character list. -/
def trimChars (l : List Char) : List Char :=
  ((l.dropWhile Char.isWhitespace).reverse.dropWhile Char.isWhitespace).reverse

/-- Model of Rust `str::trim` on strings. -/
def rustTrim (s : String) : String :=
  ⟨trimChars s.data⟩

/-- Model of Rust `str::split` with a single-character separator on a
character list.  The result is always non-empty; splitting the empty list
yields one empty piece, exactly as in Rust. -/
def splitCharList (sep : Char) : List Char → List (List Char)
  | [] => [[]]
  | c :: rest =>
    if c = sep then
      [] :: splitCharList sep rest
    else
      match splitCharList sep rest with
      | [] => [[c]]
      | h :: t => (c :: h) :: t

/-- Model of Rust `script.split("\n")` (the separator is the single
newline character). -/
def rustSplitNewline (s : String) : List String :=
  (splitCharList '\n' s.data).map (fun cs => ⟨cs⟩)

/-- Model of Rust `str::starts_with` with a string pattern. -/
def rustStartsWith (s : String) (pattern : String) : Bool :=
  pattern.data.isPrefixOf s.data

/-- The Unicode replacement character U+FFFD used by lossy decoding. -/
def replacementChar : Char := Char.ofNat 0xFFFD

/-- Is the byte a UTF-8 continuation byte (0x80 ..= 0xBF)? -/
def isUtf8Cont (b : Nat) : Bool :=
  0x80 ≤ b && b ≤ 0xBF

/-- Admissible second byte of a three-byte UTF-8 sequence headed by `b0`
(per the Unicode table used by Rust's UTF-8 validation). -/
def utf8Byte2Ok3 (b0 b1 : Nat) : Bool :=
  if b0 = 0xE0 then 0xA0 ≤ b1 && b1 ≤ 0xBF
  else if b0 = 0xED then 0x80 ≤ b1 && b1 ≤ 0x9F
  else isUtf8Cont b1

/-- Admissible second byte of a four-byte UTF-8 sequence headed by `b0`. -/
def utf8Byte2Ok4 (b0 b1 : Nat) : Bool :=
  if b0 = 0xF0 then 0x90 ≤ b1 && b1 ≤ 0xBF
  else if b0 = 0xF4 then 0x80 ≤ b1 && b1 ≤ 0x8F
  else isUtf8Cont b1

/-- Model of Rust `String::from_utf8_lossy`: decode a byte list to
characters, replacing each maximal ill-formed subsequence with one
U+FFFD.  On an invalid or truncated sequence the bytes consumed so far
are replaced and decoding resumes at the offending byte, matching the
`error_len` semantics of Rust's UTF-8 validation.  Total by
construction: no byte input can make it fail. -/
def utf8DecodeLossy : List Nat → List Char
  | [] => []
  | b0 :: rest =>
    if b0 ≤ 0x7F then
      Char.ofNat b0 :: utf8DecodeLossy rest
    else if 0xC2 ≤ b0 && b0 ≤ 0xDF then
      match rest with
      | [] => [replacementChar]
      | b1 :: rest1 =>
        if isUtf8Cont b1 then
          Char.ofNat ((b0 % 0x20) * 0x40 + b1 % 0x40) :: utf8DecodeLossy rest1
        else
          replacementChar :: utf8DecodeLossy (b1 :: rest1)
    else if 0xE0 ≤ b0 && b0 ≤ 0xEF then
      match rest with
      | [] => [replacementChar]
      | b1 :: rest1 =>
        if utf8Byte2Ok3 b0 b1 then
          match rest1 with
          | [] => [replacementChar]
          | b2 :: rest2 =>
            if isUtf8Cont b2 then
              Char.ofNat ((b0 % 0x10) * 0x1000 + (b1 % 0x40) * 0x40 + b2 % 0x40) ::
                utf8DecodeLossy rest2
            else
              replacementChar :: utf8DecodeLossy (b2 :: rest2)
        else
          replacementChar :: utf8DecodeLossy (b1 :: rest1)
    else if 0xF0 ≤ b0 && b0 ≤ 0xF4 then
      match rest with
      | [] => [replacementChar]
      | b1 :: rest1 =>
        if utf8Byte2Ok4 b0 b1 then
          match rest1 with
          | [] => [replacementChar]
          | b2 :: rest2 =>
            if isUtf8Cont b2 then
              match rest2 with
              | [] => [replacementChar]
              | b3 :: rest3 =>
                if isUtf8Cont b3 then
                  Char.ofNat ((b0 % 0x8) * 0x40000 + (b1 % 0x40) * 0x1000 +
                      (b2 % 0x40) * 0x40 + b3 % 0x40) :: utf8DecodeLossy rest3
                else
                  replacementChar :: utf8DecodeLossy (b3 :: rest3)
            else
              replacementChar :: utf8DecodeLossy (b2 :: rest2)
        else
          replacementChar :: utf8DecodeLossy (b1 :: rest1)
    else
      replacementChar :: utf8DecodeLossy rest

/-- Model of `std::path::PathBuf::push` with a relative component: join
with the path separator. -/
def pushPath (base component : String) : String :=
  base ++ "/" ++ component

/-- Model of `PathBuf::set_extension` on a file name whose final
component has no extension yet (the staged file stem is 10 alphanumeric
characters, so it never contains a dot): append a dot and the
extension. -/
def setExtension (path ext : String) : String :=
  path ++ "." ++ ext

/-- Model of Rust `Vec::insert` at an index that is at most the length
(the only way the source calls it). -/
def vecInsert (l : List α) (index : Nat) (element : α) : List α :=
  l.take index ++ element :: l.drop index

/-! ## Data model (`src/types.rs` is not part of the sources; these
declarations follow the spec's data model and their use sites in
`src/runner.rs`) -/

/-- An opaque underlying OS error value (`std::io::Error`). -/
structure IOErr where
  errId : Nat
deriving DecidableEq

/-- Modelled from the spec: the error-info tagged union of the missing
`src/types.rs` — exactly two kinds, an I/O-origin error wrapping the OS
error and a description error. -/
inductive ErrorInfo where
  | IOError (error : IOErr)
  | Description (message : String)
deriving DecidableEq

/-- Modelled from the spec: the error struct of the missing
`src/types.rs`, wrapping an `ErrorInfo`. -/
structure ScriptError where
  info : ErrorInfo
deriving DecidableEq

/-- Modelled from the spec: the three-way I/O policy of the missing
`src/types.rs`. -/
inductive IoOptions where
  | Null
  | Inherit
  | Pipe
deriving DecidableEq

/-- Modelled from the spec: the caller-supplied options of the missing
`src/types.rs`. -/
structure ScriptOptions where
  runner : Option String
  exit_on_error : Bool
  print_commands : Bool
  capture_input : IoOptions
  capture_output : IoOptions
deriving DecidableEq

/-- Model of `std::process::ExitStatus`: whether the process succeeded,
and the exit code when one is retrievable (`None` on abnormal
termination, e.g. by signal). -/
structure ExitStatus where
  success : Bool
  code : Option Int
deriving DecidableEq

/-- Model of `std::process::Output`: final status plus the raw bytes of
the two output streams. -/
structure ProcessOutput where
  status : ExitStatus
  stdout : List Nat
  stderr : List Nat
deriving DecidableEq

/-- Opaque handle of a running child process (`std::process::Child`). -/
structure Child where
  pid : Nat
deriving DecidableEq

/-- Model of `std::process::Stdio` stream modes. -/
inductive Stdio where
  | null
  | inherit
  | piped
deriving DecidableEq

/-- Model of a fully configured `std::process::Command` builder. -/
structure Command where
  program : String
  args : List String
  stdin : Stdio
  stdout : Stdio
  stderr : Stdio
deriving DecidableEq

/-- Model of `std::ffi::OsString`: `toValidString` is the result of
`into_string`, `none` when the value is not valid Unicode. -/
structure OsString where
  toValidString : Option String
deriving DecidableEq

/-- Model of `std::path::PathBuf` as returned by `current_dir`:
`to_str` is `none` when the path is not valid Unicode. -/
structure PathBuf where
  to_str : Option String
deriving DecidableEq

/-- A filesystem / process event performed by the pipeline, in order. -/
inductive Event where
  | createDirAll (path : String)
  | createFile (path : String)
  | writeFile (path : String) (contents : String)
  | deleteFile (path : String)
  | spawnProcess (cmd : Command)
  | waitProcess
deriving DecidableEq

/-- The command recorded by a spawn event, if any. -/
def Event.spawnedCmd : Event → Option Command
  | .spawnProcess c => some c
  | _ => none

/-- The ambient environment of one invocation: platform, process-wide
state and the outcome of every effectful primitive the runner calls.
`rand` gives the ten successive samples the random generator produces. -/
structure Env where
  windows : Bool
  current_dir : Except IOErr PathBuf
  temp_dir : String
  current_username : Option OsString
  rand : Fin 10 → Fin 62
  create_dir_all_result : Except IOErr Unit
  file_create_result : Except IOErr Unit
  write_all_result : Except IOErr Unit
  spawn_result : Except IOErr Child
  wait_result : Except IOErr ProcessOutput
  delete_fails : Bool

/-! ## The runner (`src/runner.rs`) -/

/-- The value of `env!("CARGO_PKG_NAME")` for this crate. -/
def CARGO_PKG_NAME : String := "run_script"

/-- Returns the exit code (`get_exit_code`, runner.rs lines 25-34). -/
def get_exit_code (code : ExitStatus) : Int :=
  if !code.success then
    match code.code with
    | some value => value
    | none => -1
  else
    0

/-- Creates a command builder for the given input
(`create_command_builder`, runner.rs lines 37-61). -/
def create_command_builder (command_string : String) (args : List String)
    (options : ScriptOptions) : Command :=
  { program := command_string
    args := args
    stdin :=
      match options.capture_input with
      | .Null => .null
      | .Inherit => .inherit
      | .Pipe => .piped
    stdout :=
      match options.capture_output with
      | .Null => .null
      | .Inherit => .inherit
      | .Pipe => .piped
    stderr :=
      match options.capture_output with
      | .Null => .null
      | .Inherit => .inherit
      | .Pipe => .piped }

/-- Outcome of the `remove_file` OS call, controlled by the
environment. -/
def remove_file (env : Env) (file : String) : Except IOErr Unit :=
  if env.delete_fails then .error ⟨0⟩ else .ok ()

/-- Function `delete_file` (runner.rs lines 63-65): attempt the removal and
swallow its result (`remove_file(file).unwrap_or(())`).  Returns the
event of the attempt; the outcome can never escalate. -/
def delete_file (env : Env) (file : String) : List Event :=
  let _ := remove_file env file
  [Event.deleteFile file]

/-- Function `get_additional_temp_path` (runner.rs lines 67-83): always `None` on
Windows; otherwise the OS username when it resolves to valid text. -/
def get_additional_temp_path (env : Env) : Option String :=
  if env.windows then
    none
  else
    match env.current_username with
    | some os_value =>
      match os_value.toValidString with
      | some value => some value
      | none => none
    | none => none

/-- The ten-character random file stem generated from the ten
Alphanumeric samples (runner.rs lines 88-92).  The sample table is the
one of Rust's `Alphanumeric` distribution. -/
def alphanumericChars : List Char :=
  (List.range 26).map (fun i => Char.ofNat (0x41 + i)) ++
  (List.range 26).map (fun i => Char.ofNat (0x61 + i)) ++
  (List.range 10).map (fun i => Char.ofNat (0x30 + i))

/-- One Alphanumeric sample as a character. -/
def alphanumericChar (i : Fin 62) : Char :=
  alphanumericChars.getD i.val 'A'

/-- The random file stem of this invocation. -/
def script_file_name (env : Env) : String :=
  ⟨(List.finRange 10).map (fun i => alphanumericChar (env.rand i))⟩

/-- Function `create_script_file` (runner.rs lines 85-129): build the staging
path, create its directories, create the file, write the script bytes;
on write failure, delete the partial file before propagating.  Returns
the result together with the events performed. -/
def create_script_file (env : Env) (script : String) :
    Except IOErr String × List Event :=
  let name := CARGO_PKG_NAME
  let file_name := script_file_name env
  let file_path := env.temp_dir
  let file_path :=
    match get_additional_temp_path env with
    | some additional_path => pushPath file_path additional_path
    | none => file_path
  let file_path := pushPath file_path name
  match env.create_dir_all_result with
  | .ok _ =>
    let dir_path := file_path
    let file_path := pushPath file_path file_name
    let file_path :=
      if env.windows then setExtension file_path "bat"
      else setExtension file_path "sh"
    let file_path_str := file_path
    match env.file_create_result with
    | .ok _ =>
      match env.write_all_result with
      | .ok _ =>
        (.ok file_path_str,
         [Event.createDirAll dir_path, Event.createFile file_path,
          Event.writeFile file_path script])
      | .error error =>
        (.error error,
         [Event.createDirAll dir_path, Event.createFile file_path,
          Event.writeFile file_path script] ++ delete_file env file_path_str)
    | .error error =>
      (.error error, [Event.createDirAll dir_path, Event.createFile file_path])
  | .error error => (.error error, [Event.createDirAll file_path])

/-- The insertion index computed at runner.rs lines 147-152: 1 when the
first line is a shebang line, 0 otherwise. -/
def shebangIndex (script_lines : List String) : Nat :=
  if script_lines.length > 0 && rustStartsWith (script_lines.headD "") "#!" then 1
  else 0

/-- Function `modify_script` (runner.rs lines 131-185): resolve the current
directory, trim and split the script, keep a leading shebang line first,
insert the option directives and the directory-change directive, append
a trailing blank line and rejoin. -/
def modify_script (env : Env) (script : String) (options : ScriptOptions) :
    Except ScriptError String :=
  match env.current_dir with
  | .ok cwd_holder =>
    match cwd_holder.to_str with
    | some cwd =>
      let cd_command := "cd " ++ cwd
      let script_lines : List String := rustSplitNewline (rustTrim script)
      let insert_index : Nat := shebangIndex script_lines
      let state : List String × Nat :=
        if !env.windows then
          let state :=
            if options.exit_on_error then
              (vecInsert script_lines insert_index "set -e", insert_index + 1)
            else
              (script_lines, insert_index)
          if options.print_commands then
            (vecInsert state.1 state.2 "set -x", state.2 + 1)
          else
            state
        else
          (script_lines, insert_index)
      let script_lines := vecInsert state.1 state.2 cd_command
      let script_lines := script_lines ++ ["\n"]
      let updated_script := String.intercalate "\n" script_lines
      .ok updated_script
    | none =>
      .error ⟨.Description "Unable to extract current working directory path."⟩
  | .error error => .error ⟨.IOError error⟩

/-- Function `spawn_script` (runner.rs lines 188-236): transform, stage, resolve
the interpreter and argument list, build the command and spawn it; on
launch failure delete the staged file before propagating. -/
def spawn_script (env : Env) (script : String) (args : List String)
    (options : ScriptOptions) :
    Except ScriptError (Child × String) × List Event :=
  match modify_script env script options with
  | .ok updated_script =>
    match create_script_file env updated_script with
    | (.ok file, events) =>
      let command :=
        match options.runner with
        | some value => value
        | none => if env.windows then "cmd.exe" else "sh"
      let all_args :=
        if env.windows then ["/C", file]
        else [file]
      let all_args := all_args ++ args
      let cmd := create_command_builder command all_args options
      match env.spawn_result with
      | .ok child => (.ok (child, file), events ++ [Event.spawnProcess cmd])
      | .error error =>
        (.error ⟨.IOError error⟩,
         events ++ [Event.spawnProcess cmd] ++ delete_file env file)
    | (.error error, events) => (.error ⟨.IOError error⟩, events)
  | .error error => (.error error, [])

/-- Public `spawn` (runner.rs lines 245-256): forward and drop the
staged file path. -/
def spawn (env : Env) (script : String) (args : List String)
    (options : ScriptOptions) : Except ScriptError Child × List Event :=
  match spawn_script env script args options with
  | (.ok (child, _), events) => (.ok child, events)
  | (.error error, events) => (.error error, events)

/-- Public `run` (runner.rs lines 265-293): spawn, wait, delete the
staged file unconditionally, then normalize the exit status and decode
the output streams lossily. -/
def run (env : Env) (script : String) (args : List String)
    (options : ScriptOptions) :
    Except ScriptError (Int × String × String) × List Event :=
  match spawn_script env script args options with
  | (.ok (_, file), events) =>
    let events := events ++ [Event.waitProcess]
    let events := events ++ delete_file env file
    match env.wait_result with
    | .ok output =>
      let exit_code := get_exit_code output.status
      let stdout : String := ⟨utf8DecodeLossy output.stdout⟩
      let stderr : String := ⟨utf8DecodeLossy output.stderr⟩
      (.ok (exit_code, stdout, stderr), events)
    | .error error => (.error ⟨.IOError error⟩, events)
  | (.error error, events) => (.error error, events)

/-! ## Derived abbreviations used in theorem statements -/

/-- The staging directory computed by `create_script_file`: the platform
temp dir, the optional per-user subpath, then the package name. -/
def scriptDirPath (env : Env) : String :=
  pushPath
    (match get_additional_temp_path env with
     | some additional_path => pushPath env.temp_dir additional_path
     | none => env.temp_dir)
    CARGO_PKG_NAME

/-- The full staged file path computed by `create_script_file`. -/
def scriptFilePath (env : Env) : String :=
  setExtension (pushPath (scriptDirPath env) (script_file_name env))
    (if env.windows then "bat" else "sh")

/-- The text produced by `modify_script` when the current working
directory resolves to `cwd`: the trimmed script's lines with the
directive block inserted at the shebang index and a trailing blank line
appended. -/
def transformedScript (env : Env) (script : String) (options : ScriptOptions)
    (cwd : String) : String :=
  String.intercalate "\n"
    ((rustSplitNewline (rustTrim script)).take
        (shebangIndex (rustSplitNewline (rustTrim script))) ++
     ((if !env.windows && options.exit_on_error then ["set -e"] else []) ++
      (if !env.windows && options.print_commands then ["set -x"] else []) ++
      ["cd " ++ cwd]) ++
     (rustSplitNewline (rustTrim script)).drop
        (shebangIndex (rustSplitNewline (rustTrim script))) ++
     ["\n"])

/-- The command that `spawn_script` builds for a staged file. -/
def spawnCommandOf (env : Env) (options : ScriptOptions) (file : String)
    (args : List String) : Command :=
  create_command_builder
    (match options.runner with
     | some value => value
     | none => if env.windows then "cmd.exe" else "sh")
    ((if env.windows then ["/C", file] else [file]) ++ args)
    options

/-! ## Concrete sample data for witnesses -/

/-- A fixed random stream: every sample is the first table entry. -/
def sampleRand : Fin 10 → Fin 62 := fun _ => ⟨0, by decide⟩

/-- A concrete non-Windows environment in which every call succeeds. -/
def baseEnv : Env :=
  { windows := false
    current_dir := .ok ⟨some "/home/alice/project"⟩
    temp_dir := "/tmp"
    current_username := some ⟨some "alice"⟩
    rand := sampleRand
    create_dir_all_result := .ok ()
    file_create_result := .ok ()
    write_all_result := .ok ()
    spawn_result := .ok ⟨42⟩
    wait_result := .ok ⟨⟨true, some 0⟩, [], []⟩
    delete_fails := false }

/-- A concrete Windows environment in which every call succeeds. -/
def winEnv : Env :=
  { windows := true
    current_dir := .ok ⟨some "work"⟩
    temp_dir := "temp"
    current_username := none
    rand := sampleRand
    create_dir_all_result := .ok ()
    file_create_result := .ok ()
    write_all_result := .ok ()
    spawn_result := .ok ⟨7⟩
    wait_result := .ok ⟨⟨true, some 0⟩, [], []⟩
    delete_fails := false }

/-- The default options of the crate (`ScriptOptions::new`). -/
def defaultOptions : ScriptOptions :=
  { runner := none
    exit_on_error := false
    print_commands := false
    capture_input := .Null
    capture_output := .Pipe }

/-- Options with an explicit runner override. -/
def runnerOptions : ScriptOptions :=
  { runner := some "bash"
    exit_on_error := false
    print_commands := false
    capture_input := .Null
    capture_output := .Pipe }

/-- Variant of `baseEnv`: waiting on the child fails. -/
def waitFailEnv : Env := { baseEnv with wait_result := .error ⟨5⟩ }

/-- Variant of `baseEnv`: the current working directory is not valid text. -/
def badCwdEnv : Env := { baseEnv with current_dir := .ok ⟨none⟩ }

/-- Variant of `baseEnv`: launching the process fails. -/
def launchFailEnv : Env := { baseEnv with spawn_result := .error ⟨6⟩ }

/-- Variant of `baseEnv`: writing the staged file fails. -/
def writeFailEnv : Env := { baseEnv with write_all_result := .error ⟨7⟩ }

/-- Variant of `baseEnv`: the child fails with code 3 and writes invalid UTF-8
bytes on both streams. -/
def lossyEnv : Env :=
  { baseEnv with wait_result := .ok ⟨⟨false, some 3⟩, [255, 104, 105], [195, 40]⟩ }

/-! ## Helper lemmas -/

theorem vecInsert_at_append (A B : List α) (n : Nat) (h : n = A.length) (z : α) :
    vecInsert (A ++ B) n z = A ++ z :: B := by
  subst h
  unfold vecInsert
  rw [List.take_left, List.drop_left]

theorem vecInsert_one (l : List α) (k : Nat) (a : α) :
    vecInsert l k a = l.take k ++ [a] ++ l.drop k := by
  unfold vecInsert
  simp

theorem length_take_of_le (l : List α) (k : Nat) (hk : k ≤ l.length) :
    (l.take k).length = k := by
  rw [List.length_take]
  omega

theorem vecInsert_two (l : List α) (k : Nat) (hk : k ≤ l.length) (a b : α) :
    vecInsert (vecInsert l k a) (k + 1) b = l.take k ++ [a, b] ++ l.drop k := by
  have hT : (l.take k).length = k := length_take_of_le l k hk
  have h1 : vecInsert l k a = (l.take k ++ [a]) ++ l.drop k := by
    conv_lhs => rw [← List.take_append_drop k l]
    rw [vecInsert_at_append _ _ _ hT.symm]
    simp
  have h2 : k + 1 = (l.take k ++ [a]).length := by simp [hT]
  rw [h1, vecInsert_at_append _ _ _ h2]
  simp

theorem vecInsert_three (l : List α) (k : Nat) (hk : k ≤ l.length) (a b c : α) :
    vecInsert (vecInsert (vecInsert l k a) (k + 1) b) (k + 1 + 1) c =
      l.take k ++ [a, b, c] ++ l.drop k := by
  have hT : (l.take k).length = k := length_take_of_le l k hk
  have h2 : vecInsert (vecInsert l k a) (k + 1) b =
      (l.take k ++ [a, b]) ++ l.drop k := by
    rw [vecInsert_two l k hk a b]
  have h3 : k + 1 + 1 = (l.take k ++ [a, b]).length := by
    simp [hT]
  rw [h2, vecInsert_at_append _ _ _ h3]
  simp

theorem shebangIndex_le (script_lines : List String) :
    shebangIndex script_lines ≤ script_lines.length := by
  unfold shebangIndex
  split
  · rename_i h
    have h0 := (Bool.and_eq_true _ _).mp h |>.1
    have : 0 < script_lines.length := of_decide_eq_true h0
    omega
  · omega

theorem getD_append_length (A : List α) (x : α) (B : List α) (d : α) :
    (A ++ x :: B).getD A.length d = x := by
  induction A with
  | nil => rfl
  | cons a A ih => simpa using ih

/-- Characterization of `modify_script` when the current directory
resolves to valid text: the transformed script is the original lines
with the directive block inserted at the shebang index and a trailing
blank line appended. -/
theorem modify_script_ok (env : Env) (script : String) (options : ScriptOptions)
    (cwd_holder : PathBuf) (cwd : String)
    (h1 : env.current_dir = .ok cwd_holder) (h2 : cwd_holder.to_str = some cwd) :
    modify_script env script options = .ok (transformedScript env script options cwd) := by
  simp only [transformedScript]
  have hk := shebangIndex_le (rustSplitNewline (rustTrim script))
  cases hw : env.windows
  · cases he : options.exit_on_error
    · cases hp : options.print_commands
      · simp only [modify_script, h1, h2, hw, he, hp, Bool.not_false, Bool.true_and,
          Bool.and_false, Bool.false_and, ite_true, ite_false, Bool.false_eq_true]
        rw [vecInsert_one]
        simp
      · simp only [modify_script, h1, h2, hw, he, hp, Bool.not_false, Bool.true_and,
          Bool.and_false, Bool.and_true, ite_true, ite_false, Bool.false_eq_true]
        rw [vecInsert_two _ _ hk]
        simp
    · cases hp : options.print_commands
      · simp only [modify_script, h1, h2, hw, he, hp, Bool.not_false, Bool.true_and,
          Bool.and_false, Bool.and_true, ite_true, ite_false, Bool.false_eq_true]
        rw [vecInsert_two _ _ hk]
        simp
      · simp only [modify_script, h1, h2, hw, he, hp, Bool.not_false, Bool.true_and,
          Bool.and_true, ite_true, ite_false]
        rw [vecInsert_three _ _ hk]
        simp
  · simp only [modify_script, h1, h2, hw, Bool.not_true, Bool.false_and, ite_true,
      ite_false, Bool.true_eq_false, Bool.false_eq_true]
    rw [vecInsert_one]
    simp

/-- Characterization of `create_script_file` when every filesystem call
succeeds: it returns the staged file path and performs exactly the
directory creation, file creation and write events. -/
theorem create_script_file_ok (env : Env) (script : String)
    (hdir : env.create_dir_all_result = .ok ())
    (hcreate : env.file_create_result = .ok ())
    (hwrite : env.write_all_result = .ok ()) :
    create_script_file env script =
      (.ok (scriptFilePath env),
       [Event.createDirAll (scriptDirPath env),
        Event.createFile (scriptFilePath env),
        Event.writeFile (scriptFilePath env) script]) := by
  cases hw : env.windows <;>
    simp [create_script_file, hdir, hcreate, hwrite, scriptFilePath, scriptDirPath, hw]

/-- Characterization of `spawn_script` when transformation, staging and
launch all succeed. -/
theorem spawn_script_ok (env : Env) (script : String) (args : List String)
    (options : ScriptOptions) (cwd_holder : PathBuf) (cwd : String) (child : Child)
    (h1 : env.current_dir = .ok cwd_holder) (h2 : cwd_holder.to_str = some cwd)
    (hdir : env.create_dir_all_result = .ok ())
    (hcreate : env.file_create_result = .ok ())
    (hwrite : env.write_all_result = .ok ())
    (hspawn : env.spawn_result = .ok child) :
    spawn_script env script args options =
      (.ok (child, scriptFilePath env),
       [Event.createDirAll (scriptDirPath env),
        Event.createFile (scriptFilePath env),
        Event.writeFile (scriptFilePath env) (transformedScript env script options cwd),
        Event.spawnProcess (spawnCommandOf env options (scriptFilePath env) args)]) := by
  simp [spawn_script, modify_script_ok env script options cwd_holder cwd h1 h2,
    create_script_file_ok env _ hdir hcreate hwrite, hspawn, spawnCommandOf]

/-- Every Alphanumeric sample is an alphanumeric character. -/
theorem alphanumericChar_isAlphanum :
    ∀ i : Fin 62, (alphanumericChar i).isAlphanum = true := by
  decide

/-! ## The claims -/

/-- C1: for every terminated child process status, the exit code
normalization of `get_exit_code` (used by `run`, and applying equally to
a status obtained by waiting on a spawn handle) is: 0 when the process
succeeded, the raw OS exit code when it failed with a retrievable code,
and -1 when it terminated abnormally with no retrievable code. -/
theorem c1_exit_code_normalization (s : ExitStatus) :
    get_exit_code s = if s.success then 0 else s.code.getD (-1) := by
  cases s with
  | mk success code => cases success <;> cases code <;> simp [get_exit_code]

/-- C5: for every script and options, when the current working directory
resolves to valid text, the transformer inserts at the insertion point,
in order: "set -e" exactly when `exit_on_error` is set and the target is
not Windows, then "set -x" exactly when `print_commands` is set and the
target is not Windows, then always the directory-change directive; on
Windows the two set-directives are never inserted but the
directory-change directive still is. -/
theorem c5_directive_insertion_order (env : Env) (script : String)
    (options : ScriptOptions) (cwd_holder : PathBuf) (cwd : String)
    (h1 : env.current_dir = .ok cwd_holder) (h2 : cwd_holder.to_str = some cwd) :
    modify_script env script options =
      .ok (String.intercalate "\n"
        ((rustSplitNewline (rustTrim script)).take
            (shebangIndex (rustSplitNewline (rustTrim script))) ++
         ((if !env.windows && options.exit_on_error then ["set -e"] else []) ++
          (if !env.windows && options.print_commands then ["set -x"] else []) ++
          ["cd " ++ cwd]) ++
         (rustSplitNewline (rustTrim script)).drop
            (shebangIndex (rustSplitNewline (rustTrim script))) ++
         ["\n"])) := by
  have h := modify_script_ok env script options cwd_holder cwd h1 h2
  simpa only [transformedScript] using h

/-- Witness for C5 at a concrete environment: both set-directives are
requested, and the transformed text carries them in order before the
directory-change directive. -/
theorem c5_directive_insertion_order_witness :
    modify_script baseEnv "echo hi"
        { defaultOptions with exit_on_error := true, print_commands := true } =
      .ok "set -e\nset -x\ncd /home/alice/project\necho hi\n\n" := by
  have h := c5_directive_insertion_order baseEnv "echo hi"
      { defaultOptions with exit_on_error := true, print_commands := true }
      ⟨some "/home/alice/project"⟩ "/home/alice/project" rfl rfl
  rw [h]
  rfl

/-- C4: for every script whose trimmed first line begins with the
interpreter-directive marker "#!", the transformed script keeps that
line as its first line, and the directory-change directive appears at
some strictly later line, never before. -/
theorem c4_shebang_first_line (env : Env) (script : String) (options : ScriptOptions)
    (cwd_holder : PathBuf) (cwd firstLine : String) (rest : List String)
    (h1 : env.current_dir = .ok cwd_holder) (h2 : cwd_holder.to_str = some cwd)
    (hsplit : rustSplitNewline (rustTrim script) = firstLine :: rest)
    (hshebang : rustStartsWith firstLine "#!" = true) :
    ∃ tail : List String,
      modify_script env script options =
        .ok (String.intercalate "\n" (firstLine :: tail)) ∧
      ∃ i : Nat, i < tail.length ∧ tail.getD i "" = "cd " ++ cwd := by
  have hmo := modify_script_ok env script options cwd_holder cwd h1 h2
  have hk1 : shebangIndex (firstLine :: rest) = 1 := by
    simp [shebangIndex, hshebang]
  have ht : List.take (shebangIndex (firstLine :: rest)) (firstLine :: rest) =
      [firstLine] := by simp [hk1]
  have hd : List.drop (shebangIndex (firstLine :: rest)) (firstLine :: rest) =
      rest := by simp [hk1]
  simp only [transformedScript, hsplit, ht, hd, List.singleton_append,
    List.cons_append, List.nil_append, List.append_assoc] at hmo
  cases hc1 : (!env.windows && options.exit_on_error) <;>
    cases hc2 : (!env.windows && options.print_commands)
  · simp only [hc1, hc2, if_false, Bool.false_eq_true, List.nil_append,
      List.cons_append, List.singleton_append] at hmo
    exact ⟨_, hmo, 0, by simp, by simp⟩
  · simp only [hc1, hc2, if_true, if_false, Bool.false_eq_true, List.nil_append,
      List.cons_append, List.singleton_append] at hmo
    exact ⟨_, hmo, 1, by simp, by simp⟩
  · simp only [hc1, hc2, if_true, if_false, Bool.false_eq_true, List.nil_append,
      List.cons_append, List.singleton_append] at hmo
    exact ⟨_, hmo, 1, by simp, by simp⟩
  · simp only [hc1, hc2, if_true, List.nil_append, List.cons_append,
      List.singleton_append] at hmo
    exact ⟨_, hmo, 2, by simp, by simp⟩

/-- Witness for C4 at a concrete shebang script: the shebang line stays
first and the directory-change directive follows it. -/
theorem c4_shebang_first_line_witness :
    ∃ tail : List String,
      modify_script baseEnv "#!/bin/sh\necho hi" defaultOptions =
        .ok (String.intercalate "\n" ("#!/bin/sh" :: tail)) ∧
      ∃ i : Nat, i < tail.length ∧ tail.getD i "" = "cd /home/alice/project" := by
  exact c4_shebang_first_line baseEnv "#!/bin/sh\necho hi" defaultOptions
    ⟨some "/home/alice/project"⟩ "/home/alice/project" "#!/bin/sh" ["echo hi"]
    rfl rfl (by decide) (by decide)

/-- C10: for every script consisting only of whitespace (the empty
string included), the transformer still succeeds whenever the current
working directory resolves to valid text: the trimmed input splits into
a single empty line, the shebang check is false, and the output is the
directive block followed by the empty line and the trailing blank line —
emptiness is never an error. -/
theorem c10_whitespace_script (env : Env) (script : String) (options : ScriptOptions)
    (cwd_holder : PathBuf) (cwd : String)
    (h1 : env.current_dir = .ok cwd_holder) (h2 : cwd_holder.to_str = some cwd)
    (hws : ∀ c ∈ script.data, c.isWhitespace = true) :
    modify_script env script options =
      .ok (String.intercalate "\n"
        ((if !env.windows && options.exit_on_error then ["set -e"] else []) ++
         (if !env.windows && options.print_commands then ["set -x"] else []) ++
         ["cd " ++ cwd, "", "\n"])) := by
  have htrim : rustTrim script = "" := by
    have hd : script.data.dropWhile Char.isWhitespace = [] :=
      List.dropWhile_eq_nil_iff.mpr hws
    simp [rustTrim, trimChars, hd]
  have hsplit : rustSplitNewline (rustTrim script) = [""] := by
    rw [htrim]
    rfl
  have hk0 : shebangIndex ([""] : List String) = 0 := by decide
  have hmo := modify_script_ok env script options cwd_holder cwd h1 h2
  simp only [transformedScript, hsplit, hk0] at hmo
  simpa using hmo

/-- Witness for C10 at a concrete whitespace-only script under the
default options: the transformation succeeds and yields exactly the
directory-change directive, the empty line and the trailing blank
line. -/
theorem c10_whitespace_script_witness :
    modify_script baseEnv " \n\t " defaultOptions =
      .ok "cd /home/alice/project\n\n\n" := by
  have h := c10_whitespace_script baseEnv " \n\t " defaultOptions
    ⟨some "/home/alice/project"⟩ "/home/alice/project" rfl rfl (by decide)
  rw [h]
  rfl

/-- C8: for every script whose launch and wait succeed, `run` returns
stdout and stderr as text for every possible byte output of the child:
the streams are decoded by the total lossy decoder (invalid sequences
replaced), so decoding never fails or aborts the invocation — the
result is `ok` no matter which bytes `output` carries. -/
theorem c8_lossy_output (env : Env) (script : String) (args : List String)
    (options : ScriptOptions) (cwd_holder : PathBuf) (cwd : String) (child : Child)
    (output : ProcessOutput)
    (h1 : env.current_dir = .ok cwd_holder) (h2 : cwd_holder.to_str = some cwd)
    (hdir : env.create_dir_all_result = .ok ())
    (hcreate : env.file_create_result = .ok ())
    (hwrite : env.write_all_result = .ok ())
    (hspawn : env.spawn_result = .ok child)
    (hwait : env.wait_result = .ok output) :
    (run env script args options).1 =
      .ok (get_exit_code output.status,
        ⟨utf8DecodeLossy output.stdout⟩, ⟨utf8DecodeLossy output.stderr⟩) := by
  simp [run,
    spawn_script_ok env script args options cwd_holder cwd child h1 h2 hdir hcreate
      hwrite hspawn,
    hwait]

/-- Witness for C8 at a concrete environment whose child writes invalid
UTF-8 on both streams: `run` still returns ok, with each ill-formed
sequence replaced by U+FFFD. -/
theorem c8_lossy_output_witness :
    (run lossyEnv "echo hi" [] defaultOptions).1 = .ok (3, "�hi", "�(") := by
  have h := c8_lossy_output lossyEnv "echo hi" [] defaultOptions
    ⟨some "/home/alice/project"⟩ "/home/alice/project" ⟨42⟩
    ⟨⟨false, some 3⟩, [255, 104, 105], [195, 40]⟩ rfl rfl rfl rfl rfl rfl rfl
  rw [h]
  rfl

/-- C3: for every `run` invocation in which staging and launch succeed,
the staged file is deleted after the wait completes, unconditionally —
the trace ends with the wait event followed by the delete event whether
the wait returns an output or an error; when waiting fails `run` returns
an IOError wrapping the wait error; and a deletion failure is never
escalated: the result is unchanged when the delete outcome flips. -/
theorem c3_run_cleanup_after_wait (env : Env) (script : String) (args : List String)
    (options : ScriptOptions) (cwd_holder : PathBuf) (cwd : String) (child : Child)
    (h1 : env.current_dir = .ok cwd_holder) (h2 : cwd_holder.to_str = some cwd)
    (hdir : env.create_dir_all_result = .ok ())
    (hcreate : env.file_create_result = .ok ())
    (hwrite : env.write_all_result = .ok ())
    (hspawn : env.spawn_result = .ok child) :
    (run env script args options).2 =
      (spawn_script env script args options).2 ++
        [Event.waitProcess, Event.deleteFile (scriptFilePath env)] ∧
    (∀ werr, env.wait_result = .error werr →
      (run env script args options).1 = .error ⟨.IOError werr⟩) ∧
    (∀ b, (run { env with delete_fails := b } script args options).1 =
      (run env script args options).1) := by
  have hss := spawn_script_ok env script args options cwd_holder cwd child h1 h2
    hdir hcreate hwrite hspawn
  refine ⟨?_, ?_, ?_⟩
  · cases hwait : env.wait_result <;> simp [run, hss, hwait, delete_file]
  · intro werr hwerr
    simp [run, hss, hwerr]
  · intro b
    have hss2 := spawn_script_ok { env with delete_fails := b } script args options
      cwd_holder cwd child h1 h2 hdir hcreate hwrite hspawn
    cases hwait : env.wait_result with
    | ok output =>
      rw [hwait] at hss2
      have hwait2 : ({ env with wait_result := .ok output, delete_fails := b } :
          Env).wait_result = .ok output := rfl
      simp [run, hss, hss2, hwait, hwait2]
    | error werr =>
      rw [hwait] at hss2
      have hwait2 : ({ env with wait_result := .error werr, delete_fails := b } :
          Env).wait_result = .error werr := rfl
      simp [run, hss, hss2, hwait, hwait2]

/-- Witness for C3 at a concrete environment whose wait fails: the run
reports the wait IOError and the trace still ends with the wait event
followed by the deletion of the staged file. -/
theorem c3_run_cleanup_after_wait_witness :
    (run waitFailEnv "exit 0" [] defaultOptions).1 = .error ⟨.IOError ⟨5⟩⟩ ∧
    (run waitFailEnv "exit 0" [] defaultOptions).2 =
      (spawn_script waitFailEnv "exit 0" [] defaultOptions).2 ++
        [Event.waitProcess, Event.deleteFile "/tmp/alice/run_script/AAAAAAAAAA.sh"] := by
  have h := c3_run_cleanup_after_wait waitFailEnv "exit 0" [] defaultOptions
    ⟨some "/home/alice/project"⟩ "/home/alice/project" ⟨42⟩ rfl rfl rfl rfl rfl rfl
  exact ⟨h.2.1 ⟨5⟩ rfl, h.1⟩

/-- C9: for every successful staging, the staged file path is the
platform temp dir, then the per-user subpath exactly when the OS
username resolves to valid text (always omitted on Windows), then the
fixed package-name directory, then a file stem of exactly 10 random
alphanumeric characters with extension "bat" on Windows and "sh"
elsewhere. -/
theorem c9_staged_path_shape (env : Env) (script : String)
    (hdir : env.create_dir_all_result = .ok ())
    (hcreate : env.file_create_result = .ok ())
    (hwrite : env.write_all_result = .ok ()) :
    ∃ nm : String,
      nm.data.length = 10 ∧
      (∀ c ∈ nm.data, c.isAlphanum = true) ∧
      (create_script_file env script).1 =
        .ok (pushPath
              (pushPath
                (match get_additional_temp_path env with
                 | some additional_path => pushPath env.temp_dir additional_path
                 | none => env.temp_dir)
                CARGO_PKG_NAME)
              nm ++ "." ++ (if env.windows then "bat" else "sh")) ∧
      (env.windows = true → get_additional_temp_path env = none) ∧
      (env.windows = false →
        get_additional_temp_path env =
          match env.current_username with
          | some os_value => os_value.toValidString
          | none => none) := by
  refine ⟨script_file_name env, ?_, ?_, ?_, ?_, ?_⟩
  · simp [script_file_name]
  · intro c hc
    simp only [script_file_name, List.mem_map] at hc
    obtain ⟨i, _, hi⟩ := hc
    rw [← hi]
    exact alphanumericChar_isAlphanum (env.rand i)
  · rw [create_script_file_ok env script hdir hcreate hwrite]
    simp [scriptFilePath, scriptDirPath, setExtension]
  · intro hw
    simp [get_additional_temp_path, hw]
  · intro hw
    cases hu : env.current_username with
    | none => simp [get_additional_temp_path, hw, hu]
    | some os_value =>
      cases hos : os_value.toValidString <;>
        simp [get_additional_temp_path, hw, hu, hos]

/-- Witness for C9 at a concrete non-Windows environment with a
resolvable username: the staged path is
`/tmp/alice/run_script/AAAAAAAAAA.sh` and the general shape holds. -/
theorem c9_staged_path_shape_witness :
    (create_script_file baseEnv "hello").1 = .ok "/tmp/alice/run_script/AAAAAAAAAA.sh" ∧
    (∃ nm : String,
      nm.data.length = 10 ∧
      (∀ c ∈ nm.data, c.isAlphanum = true) ∧
      (create_script_file baseEnv "hello").1 =
        .ok (pushPath
              (pushPath
                (match get_additional_temp_path baseEnv with
                 | some additional_path => pushPath baseEnv.temp_dir additional_path
                 | none => baseEnv.temp_dir)
                CARGO_PKG_NAME)
              nm ++ "." ++ (if baseEnv.windows then "bat" else "sh")) ∧
      (baseEnv.windows = true → get_additional_temp_path baseEnv = none) ∧
      (baseEnv.windows = false →
        get_additional_temp_path baseEnv =
          match baseEnv.current_username with
          | some os_value => os_value.toValidString
          | none => none)) :=
  ⟨rfl, c9_staged_path_shape baseEnv "hello" rfl rfl rfl⟩

/-- C7: on every failing exit path before process completion the staged
file does not outlive the failure.  If staging succeeds but the launch
fails, the trace of `spawn_script` ends with the deletion of the staged
file and the launch error is returned; if the write during staging
fails, the trace ends with the deletion of the partial file and the
write error is returned; in both cases deletion is best-effort and its
outcome never changes the returned result. -/
theorem c7_failure_cleanup (env : Env) (script : String) (args : List String)
    (options : ScriptOptions) (cwd_holder : PathBuf) (cwd : String)
    (h1 : env.current_dir = .ok cwd_holder) (h2 : cwd_holder.to_str = some cwd)
    (hdir : env.create_dir_all_result = .ok ())
    (hcreate : env.file_create_result = .ok ()) :
    (∀ serr, env.spawn_result = .error serr → env.write_all_result = .ok () →
      (spawn_script env script args options).1 = .error ⟨.IOError serr⟩ ∧
      (spawn_script env script args options).2 =
        [Event.createDirAll (scriptDirPath env),
         Event.createFile (scriptFilePath env),
         Event.writeFile (scriptFilePath env) (transformedScript env script options cwd),
         Event.spawnProcess (spawnCommandOf env options (scriptFilePath env) args),
         Event.deleteFile (scriptFilePath env)]) ∧
    (∀ werr, env.write_all_result = .error werr →
      (spawn_script env script args options).1 = .error ⟨.IOError werr⟩ ∧
      (spawn_script env script args options).2 =
        [Event.createDirAll (scriptDirPath env),
         Event.createFile (scriptFilePath env),
         Event.writeFile (scriptFilePath env) (transformedScript env script options cwd),
         Event.deleteFile (scriptFilePath env)]) ∧
    (∀ b, (spawn_script { env with delete_fails := b } script args options).1 =
      (spawn_script env script args options).1) := by
  have hmo := modify_script_ok env script options cwd_holder cwd h1 h2
  refine ⟨?_, ?_, ?_⟩
  · intro serr hserr hwok
    simp [spawn_script, hmo, create_script_file_ok env _ hdir hcreate hwok, hserr,
      delete_file, spawnCommandOf]
  · intro werr hwerr
    cases hw : env.windows <;>
      simp [spawn_script, hmo, create_script_file, hdir, hcreate, hwerr, delete_file,
        scriptDirPath, scriptFilePath, hw]
  · intro b
    generalize hE : ({ env with delete_fails := b } : Env) = envb
    have hbdir : envb.create_dir_all_result = .ok () := by
      rw [← hE]
      exact hdir
    have hbcreate : envb.file_create_result = .ok () := by
      rw [← hE]
      exact hcreate
    have hbwr0 : envb.write_all_result = env.write_all_result := by rw [← hE]
    have hbsp0 : envb.spawn_result = env.spawn_result := by rw [← hE]
    have hbmo : modify_script envb script options =
        .ok (transformedScript env script options cwd) := by
      rw [← hE]
      exact modify_script_ok _ script options cwd_holder cwd h1 h2
    cases hwr : env.write_all_result with
    | ok u =>
      cases u
      have hcs := create_script_file_ok env (transformedScript env script options cwd)
        hdir hcreate hwr
      have hbcs : create_script_file envb (transformedScript env script options cwd) =
          (.ok (scriptFilePath env),
           [Event.createDirAll (scriptDirPath env),
            Event.createFile (scriptFilePath env),
            Event.writeFile (scriptFilePath env)
              (transformedScript env script options cwd)]) := by
        rw [← hE]
        exact create_script_file_ok _ _ hdir hcreate hwr
      cases hsp : env.spawn_result with
      | ok child =>
        have hbsp : envb.spawn_result = .ok child := by rw [hbsp0, hsp]
        simp [spawn_script, hmo, hbmo, hcs, hbcs, hsp, hbsp]
      | error serr =>
        have hbsp : envb.spawn_result = .error serr := by rw [hbsp0, hsp]
        simp [spawn_script, hmo, hbmo, hcs, hbcs, hsp, hbsp, delete_file]
    | error werr =>
      have hbwr : envb.write_all_result = .error werr := by rw [hbwr0, hwr]
      simp [spawn_script, hmo, hbmo, create_script_file, hdir, hcreate, hwr, hbdir,
        hbcreate, hbwr, delete_file]

/-- Witness for C7 at concrete environments: a launch failure and a
write failure each return the underlying IOError with the staged file
deleted as the last event of the trace. -/
theorem c7_failure_cleanup_witness :
    ((spawn_script launchFailEnv "exit 0" [] defaultOptions).1 =
      .error ⟨.IOError ⟨6⟩⟩ ∧
     (spawn_script launchFailEnv "exit 0" [] defaultOptions).2 =
      [Event.createDirAll "/tmp/alice/run_script",
       Event.createFile "/tmp/alice/run_script/AAAAAAAAAA.sh",
       Event.writeFile "/tmp/alice/run_script/AAAAAAAAAA.sh"
         "cd /home/alice/project\nexit 0\n\n",
       Event.spawnProcess (spawnCommandOf launchFailEnv defaultOptions
         "/tmp/alice/run_script/AAAAAAAAAA.sh" []),
       Event.deleteFile "/tmp/alice/run_script/AAAAAAAAAA.sh"]) ∧
    ((spawn_script writeFailEnv "exit 0" [] defaultOptions).1 =
      .error ⟨.IOError ⟨7⟩⟩ ∧
     (spawn_script writeFailEnv "exit 0" [] defaultOptions).2 =
      [Event.createDirAll "/tmp/alice/run_script",
       Event.createFile "/tmp/alice/run_script/AAAAAAAAAA.sh",
       Event.writeFile "/tmp/alice/run_script/AAAAAAAAAA.sh"
         "cd /home/alice/project\nexit 0\n\n",
       Event.deleteFile "/tmp/alice/run_script/AAAAAAAAAA.sh"]) := by
  have hl := c7_failure_cleanup launchFailEnv "exit 0" [] defaultOptions
    ⟨some "/home/alice/project"⟩ "/home/alice/project" rfl rfl rfl rfl
  have hw := c7_failure_cleanup writeFailEnv "exit 0" [] defaultOptions
    ⟨some "/home/alice/project"⟩ "/home/alice/project" rfl rfl rfl rfl
  exact ⟨hl.1 ⟨6⟩ rfl rfl, hw.2.1 ⟨7⟩ rfl⟩

/-- Every error surfaced by `spawn_script` is either an IOError wrapping
an OS error, or the fixed Description error, the latter only when the
current working directory value does not convert to valid text. -/
theorem spawn_script_error_classify (env : Env) (script : String) (args : List String)
    (options : ScriptOptions) :
    ∀ e, (spawn_script env script args options).1 = .error e →
      (∃ io, e.info = .IOError io) ∨
      (e.info = .Description "Unable to extract current working directory path." ∧
       ∃ cwd_holder, env.current_dir = .ok cwd_holder ∧ cwd_holder.to_str = none) := by
  intro e he
  cases hcd : env.current_dir with
  | error io =>
    simp [spawn_script, modify_script, hcd] at he
    exact .inl ⟨io, by rw [← he]⟩
  | ok cwd_holder =>
    cases hts : cwd_holder.to_str with
    | none =>
      simp [spawn_script, modify_script, hcd, hts] at he
      exact .inr ⟨by rw [← he], cwd_holder, rfl, hts⟩
    | some cwd =>
      have hmo := modify_script_ok env script options cwd_holder cwd hcd hts
      cases hdir : env.create_dir_all_result with
      | error de =>
        simp [spawn_script, hmo, create_script_file, hdir] at he
        exact .inl ⟨de, by rw [← he]⟩
      | ok u =>
        cases u
        cases hcf : env.file_create_result with
        | error ce =>
          simp [spawn_script, hmo, create_script_file, hdir, hcf] at he
          exact .inl ⟨ce, by rw [← he]⟩
        | ok u2 =>
          cases u2
          cases hwr : env.write_all_result with
          | error we =>
            simp [spawn_script, hmo, create_script_file, hdir, hcf, hwr,
              delete_file] at he
            exact .inl ⟨we, by rw [← he]⟩
          | ok u3 =>
            cases u3
            cases hsp : env.spawn_result with
            | error se =>
              simp [spawn_script, hmo, create_script_file_ok env _ hdir hcf hwr,
                hsp, delete_file] at he
              exact .inl ⟨se, by rw [← he]⟩
            | ok child =>
              simp [spawn_script, hmo, create_script_file_ok env _ hdir hcf hwr,
                hsp] at he

/-- C6: every error returned by `run` or `spawn` carries one of exactly
two kinds of info, and the Description kind arises only when the current
working directory value cannot be converted to valid text; every other
failure (directory creation, file creation, file write, process spawn,
process wait, and resolving the current directory itself) surfaces as an
IOError wrapping the underlying OS error. -/
theorem c6_error_kinds (env : Env) (script : String) (args : List String)
    (options : ScriptOptions) :
    (∀ e, (run env script args options).1 = .error e →
      (∃ io, e.info = .IOError io) ∨
      (e.info = .Description "Unable to extract current working directory path." ∧
       ∃ cwd_holder, env.current_dir = .ok cwd_holder ∧ cwd_holder.to_str = none)) ∧
    (∀ e, (spawn env script args options).1 = .error e →
      (∃ io, e.info = .IOError io) ∨
      (e.info = .Description "Unable to extract current working directory path." ∧
       ∃ cwd_holder, env.current_dir = .ok cwd_holder ∧ cwd_holder.to_str = none)) := by
  constructor
  · intro e he
    rcases hsp : spawn_script env script args options with ⟨res, tr⟩
    cases res with
    | error err =>
      have herr : (spawn_script env script args options).1 = .error err := by
        rw [hsp]
      simp [run, hsp] at he
      rw [← he]
      exact spawn_script_error_classify env script args options err herr
    | ok pair =>
      obtain ⟨child, file⟩ := pair
      cases hw : env.wait_result with
      | ok out => simp [run, hsp, hw] at he
      | error werr =>
        simp [run, hsp, hw] at he
        exact .inl ⟨werr, by rw [← he]⟩
  · intro e he
    rcases hsp : spawn_script env script args options with ⟨res, tr⟩
    cases res with
    | error err =>
      have herr : (spawn_script env script args options).1 = .error err := by
        rw [hsp]
      simp [spawn, hsp] at he
      rw [← he]
      exact spawn_script_error_classify env script args options err herr
    | ok pair =>
      obtain ⟨child, file⟩ := pair
      simp [spawn, hsp] at he

/-- Witness for C6 at a concrete environment whose current working
directory is not valid text: the single error run returns is the
Description error, and its preconditions hold. -/
theorem c6_error_kinds_witness :
    (∃ io, (ScriptError.mk
        (.Description "Unable to extract current working directory path.")).info =
        .IOError io) ∨
    ((ScriptError.mk
        (.Description "Unable to extract current working directory path.")).info =
        .Description "Unable to extract current working directory path." ∧
     ∃ cwd_holder, badCwdEnv.current_dir = .ok cwd_holder ∧
       cwd_holder.to_str = none) :=
  (c6_error_kinds badCwdEnv "exit 0" [] defaultOptions).1
    ⟨.Description "Unable to extract current working directory path."⟩ rfl

/-- Counterexample to C2 as stated: at a concrete Windows invocation
with `runner` set to "bash", the staged file path is not the sole
leading argument — the platform flag "/C" is still prepended before it
(the runner string itself is used verbatim, but the flag clause of the
claim fails). -/
theorem c2_counterexample :
    ¬ ((spawn_script winEnv "echo hi" ["a1"] runnerOptions).2.filterMap
        Event.spawnedCmd =
      [create_command_builder "bash" ["temp/run_script/AAAAAAAAAA.bat", "a1"]
        runnerOptions]) ∧
    (spawn_script winEnv "echo hi" ["a1"] runnerOptions).2.filterMap
        Event.spawnedCmd =
      [create_command_builder "bash" ["/C", "temp/run_script/AAAAAAAAAA.bat", "a1"]
        runnerOptions] := by
  constructor
  · decide
  · rfl

/-- C2 amended: for every invocation where `options.runner` is set, that
runner string is used verbatim as the interpreter; the staged file path
is the sole leading argument on non-Windows targets, while on Windows
the platform flag "/C" is still prepended before the file path even when
`runner` is set; and the caller-supplied args are always appended after
the file path, in order. -/
theorem c2_runner_args_amended (env : Env) (script : String) (args : List String)
    (options : ScriptOptions) (r : String) (cwd_holder : PathBuf) (cwd : String)
    (child : Child)
    (hr : options.runner = some r)
    (h1 : env.current_dir = .ok cwd_holder) (h2 : cwd_holder.to_str = some cwd)
    (hdir : env.create_dir_all_result = .ok ())
    (hcreate : env.file_create_result = .ok ())
    (hwrite : env.write_all_result = .ok ())
    (hspawn : env.spawn_result = .ok child) :
    (spawn_script env script args options).2.filterMap Event.spawnedCmd =
      [create_command_builder r
        ((if env.windows then ["/C", scriptFilePath env] else [scriptFilePath env]) ++
          args)
        options] ∧
    (env.windows = false →
      (create_command_builder r
        ((if env.windows then ["/C", scriptFilePath env] else [scriptFilePath env]) ++
          args)
        options).args = scriptFilePath env :: args) := by
  constructor
  · simp [spawn_script_ok env script args options cwd_holder cwd child h1 h2 hdir
      hcreate hwrite hspawn, Event.spawnedCmd, spawnCommandOf, hr]
  · intro hw
    simp [create_command_builder, hw]

/-- Witness for C2 amended at a concrete non-Windows invocation with
runner "bash": the spawned command runs "bash" with the staged file path
as sole leading argument followed by the caller args. -/
theorem c2_runner_args_amended_witness :
    (spawn_script baseEnv "echo hi" ["a1"] runnerOptions).2.filterMap
        Event.spawnedCmd =
      [create_command_builder "bash" ["/tmp/alice/run_script/AAAAAAAAAA.sh", "a1"]
        runnerOptions] ∧
    (create_command_builder "bash" ["/tmp/alice/run_script/AAAAAAAAAA.sh", "a1"]
        runnerOptions).args = ["/tmp/alice/run_script/AAAAAAAAAA.sh", "a1"] := by
  have h := c2_runner_args_amended baseEnv "echo hi" ["a1"] runnerOptions "bash"
    ⟨some "/home/alice/project"⟩ "/home/alice/project" ⟨42⟩ rfl rfl rfl rfl rfl rfl rfl
  exact ⟨h.1, h.2 rfl⟩

end RunScript
